import Mathlib

/-!
Verification of the `Target` core of avatar2 (`src/avatar2/targets/target.py`):
a state-guarded delegation facade over pluggable backend protocols, with a
wait/update_state synchronization primitive.

The embedding below follows the Python source: the guard decorator
`action_valid_decorator_factory`, the ten guarded actions, `shutdown`,
`update_state`, `wait` (modelled as a scan over the snapshots its polling
loop observes) and `get_status`. Backend protocols are opaque records of
result values/functions; `ρ` is the backend result type and `ε` the type of
errors a backend `shutdown` may raise.
-/

set_option autoImplicit false

namespace Avatar2

/-- The `TargetStates` enum from the source. -/
inductive TargetStates where
  | CREATED
  | INITIALIZED
  | STOPPED
  | RUNNING
  | SYNCHING
  | EXITED
deriving DecidableEq, Repr

/-- The numeric value of each enum member (`CREATED = 0x1`, ...). -/
def TargetStates.val : TargetStates → Nat
  | .CREATED => 0x1
  | .INITIALIZED => 0x2
  | .STOPPED => 0x4
  | .RUNNING => 0x8
  | .SYNCHING => 0x10
  | .EXITED => 0x20

/-- `TargetStates(state).name` as used in the wrong-state error message. -/
def TargetStates.pyName : TargetStates → String
  | .CREATED => "CREATED"
  | .INITIALIZED => "INITIALIZED"
  | .STOPPED => "STOPPED"
  | .RUNNING => "RUNNING"
  | .SYNCHING => "SYNCHING"
  | .EXITED => "EXITED"

/-- Values stored in the `status` dict: the `state` entry written by
`get_status`, or an arbitrary caller-populated auxiliary value. -/
inductive StatusVal where
  | st (s : TargetStates)
  | aux (v : String)
deriving DecidableEq, Repr

/-- Python dict assignment `d[k] = v` on an insertion-ordered assoc list:
update in place when the key exists, append otherwise. -/
def dictSet (d : List (String × StatusVal)) (k : String) (v : StatusVal) :
    List (String × StatusVal) :=
  match d with
  | [] => [(k, v)]
  | (k0, v0) :: rest =>
    if k0 = k then (k, v) :: rest else (k0, v0) :: dictSet rest k v

/-- Python dict lookup `d[k]`. -/
def dictGet (d : List (String × StatusVal)) (k : String) : Option StatusVal :=
  match d with
  | [] => none
  | (k0, v0) :: rest => if k0 = k then some v0 else dictGet rest k

/-- A backend protocol instance: an opaque object exposing the methods the
facade calls on it (duck-typed in Python; here one record holding them all).
`ρ` is the backend's result type, `ε` the error its `shutdown` may raise. -/
structure Protocol (ρ ε : Type) where
  cont : ρ
  stop : ρ
  step : ρ
  read_memory : Nat → Nat → Nat → Bool → ρ
  write_memory : Nat → Nat → Nat → Nat → Bool → ρ
  read_register : String → ρ
  write_register : String → Nat → ρ
  set_breakpoint : Nat → Bool → Bool → Bool → Option String → Nat → Nat → ρ
  set_watchpoint : String → Bool → Bool → ρ
  remove_breakpoint : Nat → ρ
  shutdown : Except ε Unit

/-- The six capability slots of a `Target`. -/
inductive ProtSlot where
  | exec
  | memory
  | register
  | signal
  | monitor
  | remote_memory
deriving DecidableEq, Repr

/-- The Python attribute name of each slot (the `protocol` string the
decorator factory receives). -/
def ProtSlot.fieldName : ProtSlot → String
  | .exec => "_exec_protocol"
  | .memory => "_memory_protocol"
  | .register => "_register_protocol"
  | .signal => "_signal_protocol"
  | .monitor => "_monitor_protocol"
  | .remote_memory => "_remote_memory_protocol"

/-- The `Target` object: current state, the `status` dict, the six protocol
slots, and the `_no_state_update_pending` Event (`true` = set). -/
structure Target (ρ ε : Type) where
  name : String
  state : TargetStates
  status : List (String × StatusVal)
  exec_protocol : Option (Protocol ρ ε)
  memory_protocol : Option (Protocol ρ ε)
  register_protocol : Option (Protocol ρ ε)
  signal_protocol : Option (Protocol ρ ε)
  monitor_protocol : Option (Protocol ρ ε)
  remote_memory_protocol : Option (Protocol ρ ε)
  no_state_update_pending : Bool

variable {ρ ε : Type}

/-- `getattr(self, protocol)` for a slot name. -/
def Target.getSlot (t : Target ρ ε) : ProtSlot → Option (Protocol ρ ε)
  | .exec => t.exec_protocol
  | .memory => t.memory_protocol
  | .register => t.register_protocol
  | .signal => t.signal_protocol
  | .monitor => t.monitor_protocol
  | .remote_memory => t.remote_memory_protocol

/-- Assignment to a slot attribute. -/
def Target.setSlot (t : Target ρ ε) : ProtSlot → Option (Protocol ρ ε) → Target ρ ε
  | .exec, v => { t with exec_protocol := v }
  | .memory, v => { t with memory_protocol := v }
  | .register, v => { t with register_protocol := v }
  | .signal, v => { t with signal_protocol := v }
  | .monitor, v => { t with monitor_protocol := v }
  | .remote_memory, v => { t with remote_memory_protocol := v }

/-- The freshly constructed target (`__init__`): state `CREATED`, empty
status dict, all slots empty, the Event initially cleared. -/
def Target.create (name : String) : Target ρ ε :=
  { name := name
    state := TargetStates.CREATED
    status := []
    exec_protocol := none
    memory_protocol := none
    register_protocol := none
    signal_protocol := none
    monitor_protocol := none
    remote_memory_protocol := none
    no_state_update_pending := false }

/-- The two exceptions the guard raises, carrying exactly the data the
source interpolates into each message. -/
inductive TargetError where
  | capUnavailable (funcName protocolName : String)
  | wrongState (funcName : String) (actual : TargetStates)
deriving DecidableEq, Repr

/-- The exception message text, as formatted by the source. -/
def TargetError.message : TargetError → String
  | .capUnavailable f p => f ++ "() requested but " ++ p ++ " is undefined."
  | .wrongState f a => f ++ "() requested but Target is " ++ a.pyName

/-- Outcome of one guarded-action call: the raised error or the returned
value, the target afterwards, and the backend methods invoked. -/
structure ActionOutcome (ρ ε : Type) where
  result : Except TargetError ρ
  target : Target ρ ε
  calls : List String

/-- The guard produced by `action_valid_decorator_factory(state, protocol)`:
raise if the slot is empty; else raise if the state differs; else run the
wrapped body (which receives the attached protocol instance). -/
def action_valid_decorator_factory (state : TargetStates) (protocol : ProtSlot)
    (funcName : String) (t : Target ρ ε)
    (func : Protocol ρ ε → ActionOutcome ρ ε) : ActionOutcome ρ ε :=
  match t.getSlot protocol with
  | none =>
    ⟨Except.error (TargetError.capUnavailable funcName protocol.fieldName), t, []⟩
  | some p =>
    if t.state ≠ state then
      ⟨Except.error (TargetError.wrongState funcName t.state), t, []⟩
    else func p

/-- `cont()`: guard (STOPPED, exec); clear the Event; forward. -/
def Target.cont (t : Target ρ ε) : ActionOutcome ρ ε :=
  action_valid_decorator_factory TargetStates.STOPPED ProtSlot.exec "cont" t
    (fun p => ⟨Except.ok p.cont,
      { t with no_state_update_pending := false }, ["cont"]⟩)

/-- `stop()`: guard (RUNNING, exec); clear the Event; forward. -/
def Target.stop (t : Target ρ ε) : ActionOutcome ρ ε :=
  action_valid_decorator_factory TargetStates.RUNNING ProtSlot.exec "stop" t
    (fun p => ⟨Except.ok p.stop,
      { t with no_state_update_pending := false }, ["stop"]⟩)

/-- `step()`: guard (STOPPED, exec); clear the Event; forward. -/
def Target.step (t : Target ρ ε) : ActionOutcome ρ ε :=
  action_valid_decorator_factory TargetStates.STOPPED ProtSlot.exec "step" t
    (fun p => ⟨Except.ok p.step,
      { t with no_state_update_pending := false }, ["step"]⟩)

/-- `write_memory(address, size, value, num_words, raw)`. -/
def Target.write_memory (t : Target ρ ε)
    (address size value num_words : Nat) (raw : Bool) : ActionOutcome ρ ε :=
  action_valid_decorator_factory TargetStates.STOPPED ProtSlot.memory "write_memory" t
    (fun p => ⟨Except.ok (p.write_memory address size value num_words raw),
      t, ["write_memory"]⟩)

/-- `read_memory(address, size, words, raw)`. -/
def Target.read_memory (t : Target ρ ε)
    (address size words : Nat) (raw : Bool) : ActionOutcome ρ ε :=
  action_valid_decorator_factory TargetStates.STOPPED ProtSlot.memory "read_memory" t
    (fun p => ⟨Except.ok (p.read_memory address size words raw),
      t, ["read_memory"]⟩)

/-- `write_register(register, value)`. -/
def Target.write_register (t : Target ρ ε)
    (register : String) (value : Nat) : ActionOutcome ρ ε :=
  action_valid_decorator_factory TargetStates.STOPPED ProtSlot.register "write_register" t
    (fun p => ⟨Except.ok (p.write_register register value),
      t, ["write_register"]⟩)

/-- `read_register(register)`. -/
def Target.read_register (t : Target ρ ε) (register : String) : ActionOutcome ρ ε :=
  action_valid_decorator_factory TargetStates.STOPPED ProtSlot.register "read_register" t
    (fun p => ⟨Except.ok (p.read_register register),
      t, ["read_register"]⟩)

/-- `set_breakpoint(line, hardware, temporary, regex, condition, ignore_count, thread)`. -/
def Target.set_breakpoint (t : Target ρ ε)
    (line : Nat) (hardware temporary regex : Bool) (condition : Option String)
    (ignore_count thread : Nat) : ActionOutcome ρ ε :=
  action_valid_decorator_factory TargetStates.STOPPED ProtSlot.exec "set_breakpoint" t
    (fun p => ⟨Except.ok
      (p.set_breakpoint line hardware temporary regex condition ignore_count thread),
      t, ["set_breakpoint"]⟩)

/-- `set_watchpoint(variable, write, read)`. -/
def Target.set_watchpoint (t : Target ρ ε)
    (var : String) (write read : Bool) : ActionOutcome ρ ε :=
  action_valid_decorator_factory TargetStates.STOPPED ProtSlot.exec "set_watchpoint" t
    (fun p => ⟨Except.ok (p.set_watchpoint var write read),
      t, ["set_watchpoint"]⟩)

/-- `remove_breakpoint(bkptno)`. -/
def Target.remove_breakpoint (t : Target ρ ε) (bkptno : Nat) : ActionOutcome ρ ε :=
  action_valid_decorator_factory TargetStates.STOPPED ProtSlot.exec "remove_breakpoint" t
    (fun p => ⟨Except.ok (p.remove_breakpoint bkptno),
      t, ["remove_breakpoint"]⟩)

/-- `update_state(state)`: record the new state and set the Event
(the log line is an external side effect, not modelled). -/
def Target.update_state (t : Target ρ ε) (state : TargetStates) : Target ρ ε :=
  { t with state := state, no_state_update_pending := true }

/-- `get_status()`: `self.status['state'] = self.state; return self.status`.
Returns the target afterwards and the returned dict. -/
def Target.get_status (t : Target ρ ε) :
    Target ρ ε × List (String × StatusVal) :=
  let d := dictSet t.status "state" (StatusVal.st t.state)
  ({ t with status := d }, d)

/-- `init()`: a `pass` body. -/
def Target.init (t : Target ρ ε) : Target ρ ε := t

/-- The order in which `shutdown` visits the slots in the source. -/
def shutdownOrder : List ProtSlot :=
  [ProtSlot.exec, ProtSlot.memory, ProtSlot.register,
   ProtSlot.signal, ProtSlot.monitor, ProtSlot.remote_memory]

/-- The body of `shutdown`, one `if slot: slot.shutdown(); slot = None`
block per slot in `l`. A raised backend error propagates at once: the
current slot is left attached and later slots are not visited. Returns the
error raised (if any), the target afterwards, and the slots whose
protocol's `shutdown` was invoked, in order. -/
def shutdownFrom (t : Target ρ ε) : List ProtSlot → Option ε × Target ρ ε × List ProtSlot
  | [] => (none, t, [])
  | s :: rest =>
    match t.getSlot s with
    | none => shutdownFrom t rest
    | some p =>
      match p.shutdown with
      | Except.error e => (some e, t, [s])
      | Except.ok _ =>
        let t2 := t.setSlot s none
        let out := shutdownFrom t2 rest
        (out.1, out.2.1, s :: out.2.2)

/-- `shutdown()`: tear down and clear every attached slot, in source order. -/
def Target.shutdown (t : Target ρ ε) : Option ε × Target ρ ε × List ProtSlot :=
  shutdownFrom t shutdownOrder

/-- One observation made by `wait()`'s polling loop: the values of
`self.state` and `self._no_state_update_pending.is_set()` at a check. -/
structure Snapshot where
  state : TargetStates
  pending : Bool
deriving DecidableEq, Repr

/-- The snapshot a waiter observes of a target. -/
def Target.snapshot (t : Target ρ ε) : Snapshot :=
  ⟨t.state, t.no_state_update_pending⟩

/-- The `break` condition of `wait()`'s loop. -/
def waitCond (sn : Snapshot) : Bool :=
  sn.state = TargetStates.STOPPED && sn.pending

/-- `wait()` over the sequence of snapshots its loop observes: the index of
the first observation satisfying the break condition (`none` when the loop
never exits within the observed sequence). -/
def waitScan : List Snapshot → Option Nat
  | [] => none
  | sn :: rest =>
    if waitCond sn then some 0 else (waitScan rest).map (· + 1)

/-- The ten guarded actions of the facade. -/
inductive ActionName where
  | cont
  | stop
  | step
  | read_memory
  | write_memory
  | read_register
  | write_register
  | set_breakpoint
  | set_watchpoint
  | remove_breakpoint
deriving DecidableEq, Repr

/-- The Python method name (`func.__name__`) of each action. -/
def ActionName.funcName : ActionName → String
  | .cont => "cont"
  | .stop => "stop"
  | .step => "step"
  | .read_memory => "read_memory"
  | .write_memory => "write_memory"
  | .read_register => "read_register"
  | .write_register => "write_register"
  | .set_breakpoint => "set_breakpoint"
  | .set_watchpoint => "set_watchpoint"
  | .remove_breakpoint => "remove_breakpoint"

/-- The `state` argument each action's decorator receives. -/
def ActionName.requiredState : ActionName → TargetStates
  | .stop => TargetStates.RUNNING
  | _ => TargetStates.STOPPED

/-- The `protocol` argument each action's decorator receives. -/
def ActionName.requiredSlot : ActionName → ProtSlot
  | .read_memory => ProtSlot.memory
  | .write_memory => ProtSlot.memory
  | .read_register => ProtSlot.register
  | .write_register => ProtSlot.register
  | _ => ProtSlot.exec

/-- One record of arguments covering every guarded action's parameters, so
the actions can be quantified over uniformly. -/
structure ActionArgs where
  address : Nat
  size : Nat
  value : Nat
  num_words : Nat
  words : Nat
  raw : Bool
  register : String
  line : Nat
  hardware : Bool
  temporary : Bool
  regex : Bool
  condition : Option String
  ignore_count : Nat
  thread : Nat
  var : String
  write : Bool
  read : Bool
  bkptno : Nat
deriving Repr

/-- Dispatch a named guarded action with arguments drawn from `g`. -/
def Target.runAction (t : Target ρ ε) (a : ActionName) (g : ActionArgs) :
    ActionOutcome ρ ε :=
  match a with
  | .cont => t.cont
  | .stop => t.stop
  | .step => t.step
  | .read_memory => t.read_memory g.address g.size g.words g.raw
  | .write_memory => t.write_memory g.address g.size g.value g.num_words g.raw
  | .read_register => t.read_register g.register
  | .write_register => t.write_register g.register g.value
  | .set_breakpoint =>
    t.set_breakpoint g.line g.hardware g.temporary g.regex g.condition
      g.ignore_count g.thread
  | .set_watchpoint => t.set_watchpoint g.var g.write g.read
  | .remove_breakpoint => t.remove_breakpoint g.bkptno

/-- The value each action's wrapped body obtains from the attached protocol
instance `p` (the expression it forwards to and returns). -/
def actionBody (p : Protocol ρ ε) (a : ActionName) (g : ActionArgs) : ρ :=
  match a with
  | .cont => p.cont
  | .stop => p.stop
  | .step => p.step
  | .read_memory => p.read_memory g.address g.size g.words g.raw
  | .write_memory => p.write_memory g.address g.size g.value g.num_words g.raw
  | .read_register => p.read_register g.register
  | .write_register => p.write_register g.register g.value
  | .set_breakpoint =>
    p.set_breakpoint g.line g.hardware g.temporary g.regex g.condition
      g.ignore_count g.thread
  | .set_watchpoint => p.set_watchpoint g.var g.write g.read
  | .remove_breakpoint => p.remove_breakpoint g.bkptno

/-- Whether the action's body clears `_no_state_update_pending` before
forwarding (`cont`, `stop`, `step` do; the others do not). -/
def ActionName.clearsPending : ActionName → Bool
  | .cont => true
  | .stop => true
  | .step => true
  | _ => false

/-- The target each action's body leaves behind when the guard passes. -/
def Target.afterBody (t : Target ρ ε) (a : ActionName) : Target ρ ε :=
  if a.clearsPending then { t with no_state_update_pending := false } else t

/-- `needle` occurs at the start of `hay`. -/
def listLeadsWith : List Char → List Char → Bool
  | _, [] => true
  | [], _ :: _ => false
  | a :: hs, b :: ns => a == b && listLeadsWith hs ns

/-- `needle` occurs somewhere inside `hay` (substring test used to state
that an error message "names" something). -/
def listHasSub : List Char → List Char → Bool
  | [], needle => needle.isEmpty
  | a :: hs, needle => listLeadsWith (a :: hs) needle || listHasSub hs needle

/-- Substring containment on strings. -/
def strHasSub (hay needle : String) : Bool :=
  listHasSub hay.toList needle.toList

/-! ### Helper lemmas -/

theorem dictGet_dictSet_self (d : List (String × StatusVal)) (k : String) (v : StatusVal) :
    dictGet (dictSet d k v) k = some v := by
  induction d with
  | nil => simp [dictSet, dictGet]
  | cons kv rest ih =>
    obtain ⟨k0, v0⟩ := kv
    by_cases h : k0 = k <;> simp [dictSet, dictGet, h, ih]

theorem dictGet_dictSet_other (d : List (String × StatusVal)) (k k' : String) (v : StatusVal)
    (h : k' ≠ k) : dictGet (dictSet d k v) k' = dictGet d k' := by
  induction d with
  | nil => simp [dictSet, dictGet, Ne.symm h]
  | cons kv rest ih =>
    obtain ⟨k0, v0⟩ := kv
    by_cases h0 : k0 = k
    · subst h0
      simp [dictSet, dictGet, Ne.symm h]
    · simp [dictSet, dictGet, h0, ih]

theorem getSlot_setSlot (t : Target ρ ε) (s s' : ProtSlot) (v : Option (Protocol ρ ε)) :
    (t.setSlot s v).getSlot s' = if s' = s then v else t.getSlot s' := by
  cases s <;> cases s' <;> simp [Target.getSlot, Target.setSlot]

theorem setSlot_none_of_none (t : Target ρ ε) (s : ProtSlot) (h : t.getSlot s = none) :
    t.setSlot s none = t := by
  obtain ⟨n, st, su, e1, e2, e3, e4, e5, e6, pd⟩ := t
  cases s <;> simp_all [Target.getSlot, Target.setSlot]

theorem setSlot_state (t : Target ρ ε) (s : ProtSlot) (v : Option (Protocol ρ ε)) :
    (t.setSlot s v).state = t.state := by
  cases s <;> rfl

theorem setSlot_status (t : Target ρ ε) (s : ProtSlot) (v : Option (Protocol ρ ε)) :
    (t.setSlot s v).status = t.status := by
  cases s <;> rfl

theorem setSlot_pending (t : Target ρ ε) (s : ProtSlot) (v : Option (Protocol ρ ε)) :
    (t.setSlot s v).no_state_update_pending = t.no_state_update_pending := by
  cases s <;> rfl

theorem mem_shutdownOrder (s : ProtSlot) : s ∈ shutdownOrder := by
  cases s <;> simp [shutdownOrder]

theorem nodup_shutdownOrder : shutdownOrder.Nodup := by
  simp [shutdownOrder]

theorem waitScan_eq_some {tr : List Snapshot} {i : Nat} (h : waitScan tr = some i) :
    ∃ sn, tr[i]? = some sn ∧ waitCond sn = true := by
  induction tr generalizing i with
  | nil => simp [waitScan] at h
  | cons sn rest ih =>
    by_cases hc : waitCond sn
    · simp only [waitScan, if_pos hc] at h
      obtain rfl : (0 : Nat) = i := Option.some.inj h
      exact ⟨sn, by simp, hc⟩
    · simp only [waitScan, if_neg hc, Option.map_eq_some'] at h
      obtain ⟨j, hj, rfl⟩ := h
      obtain ⟨sn', h1, h2⟩ := ih hj
      exact ⟨sn', by simpa using h1, h2⟩

theorem waitScan_eq_none {tr : List Snapshot} (h : ∀ sn ∈ tr, waitCond sn = false) :
    waitScan tr = none := by
  induction tr with
  | nil => rfl
  | cons sn rest ih =>
    have hc : waitCond sn = false := h sn (by simp)
    simp [waitScan, hc, ih fun s hs => h s (by simp [hs])]

theorem waitScan_le {tr : List Snapshot} {k : Nat} {sn : Snapshot}
    (hk : tr[k]? = some sn) (hc : waitCond sn = true) :
    ∃ i, i ≤ k ∧ waitScan tr = some i := by
  induction tr generalizing k with
  | nil => simp at hk
  | cons a rest ih =>
    by_cases ha : waitCond a
    · exact ⟨0, Nat.zero_le _, by simp [waitScan, ha]⟩
    · cases k with
      | zero =>
        obtain rfl : a = sn := by simpa using hk
        exact absurd hc (by simp [ha])
      | succ k' =>
        obtain ⟨i, hi, hscan⟩ := ih (by simpa using hk)
        exact ⟨i + 1, Nat.succ_le_succ hi, by simp [waitScan, ha, hscan]⟩

theorem listLeadsWith_nil (h : List Char) : listLeadsWith h [] = true := by
  cases h <;> rfl

theorem listLeadsWith_append (n r : List Char) : listLeadsWith (n ++ r) n = true := by
  induction n with
  | nil => exact listLeadsWith_nil r
  | cons a hs ih => simp [listLeadsWith, ih]

theorem listHasSub_of_leadsWith {h n : List Char} (hl : listLeadsWith h n = true) :
    listHasSub h n = true := by
  cases h with
  | nil =>
    cases n with
    | nil => rfl
    | cons b bs => simp [listLeadsWith] at hl
  | cons a hs => simp [listHasSub, hl]

theorem listHasSub_cons {h n : List Char} (a : Char) (hs : listHasSub h n = true) :
    listHasSub (a :: h) n = true := by
  simp [listHasSub, hs]

theorem listHasSub_append_left (n r : List Char) : listHasSub (n ++ r) n = true :=
  listHasSub_of_leadsWith (listLeadsWith_append n r)

theorem listHasSub_append_right (x : List Char) {h n : List Char}
    (hs : listHasSub h n = true) : listHasSub (x ++ h) n = true := by
  induction x with
  | nil => simpa using hs
  | cons a xs ih => exact listHasSub_cons a ih

theorem strHasSub_append_left (x y : String) : strHasSub (x ++ y) x = true := by
  simpa [strHasSub, String.toList] using listHasSub_append_left x.data y.data

theorem strHasSub_append_right (x : String) {y n : String}
    (hs : strHasSub y n = true) : strHasSub (x ++ y) n = true := by
  simpa [strHasSub, String.toList] using
    listHasSub_append_right x.data (by simpa [strHasSub, String.toList] using hs)

theorem strHasSub_self (n : String) : strHasSub n n = true := by
  simpa using strHasSub_append_left n ""

theorem listHasSub_self (n : List Char) : listHasSub n n = true := by
  simpa using listHasSub_append_left n []

theorem strHasSub_triple_left (x y z : String) : strHasSub (x ++ y ++ z) x = true := by
  simpa [strHasSub, String.toList, List.append_assoc] using
    listHasSub_append_left x.data (y.data ++ z.data)

theorem strHasSub_triple_right (x y z : String) : strHasSub (x ++ y ++ z) z = true := by
  simpa [strHasSub, String.toList, List.append_assoc] using
    listHasSub_append_right x.data (listHasSub_append_right y.data (listHasSub_self z.data))

theorem runAction_slot_none (t : Target ρ ε) (a : ActionName) (g : ActionArgs)
    (h : t.getSlot a.requiredSlot = none) :
    t.runAction a g =
      ⟨Except.error (TargetError.capUnavailable a.funcName a.requiredSlot.fieldName),
       t, []⟩ := by
  cases a <;>
    simp_all [Target.runAction, Target.cont, Target.stop, Target.step,
      Target.read_memory, Target.write_memory, Target.read_register,
      Target.write_register, Target.set_breakpoint, Target.set_watchpoint,
      Target.remove_breakpoint, action_valid_decorator_factory,
      ActionName.funcName, ActionName.requiredSlot]

theorem runAction_wrong_state (t : Target ρ ε) (a : ActionName) (g : ActionArgs)
    (p : Protocol ρ ε) (hp : t.getSlot a.requiredSlot = some p)
    (hs : t.state ≠ a.requiredState) :
    t.runAction a g =
      ⟨Except.error (TargetError.wrongState a.funcName t.state), t, []⟩ := by
  cases a <;>
    simp_all [Target.runAction, Target.cont, Target.stop, Target.step,
      Target.read_memory, Target.write_memory, Target.read_register,
      Target.write_register, Target.set_breakpoint, Target.set_watchpoint,
      Target.remove_breakpoint, action_valid_decorator_factory,
      ActionName.funcName, ActionName.requiredSlot, ActionName.requiredState]

theorem runAction_guard_ok (t : Target ρ ε) (a : ActionName) (g : ActionArgs)
    (p : Protocol ρ ε) (hp : t.getSlot a.requiredSlot = some p)
    (hs : t.state = a.requiredState) :
    t.runAction a g =
      ⟨Except.ok (actionBody p a g), t.afterBody a, [a.funcName]⟩ := by
  cases a <;>
    simp_all [Target.runAction, Target.cont, Target.stop, Target.step,
      Target.read_memory, Target.write_memory, Target.read_register,
      Target.write_register, Target.set_breakpoint, Target.set_watchpoint,
      Target.remove_breakpoint, action_valid_decorator_factory,
      ActionName.funcName, ActionName.requiredSlot, ActionName.requiredState,
      actionBody, Target.afterBody, ActionName.clearsPending]

/-- Clearing a list of slots in order (spec-side description of what a
successful `shutdown` pass does to the slots). -/
def clearSlots (t : Target ρ ε) : List ProtSlot → Target ρ ε
  | [] => t
  | s :: rest => clearSlots (t.setSlot s none) rest

theorem getSlot_clearSlots (t : Target ρ ε) (l : List ProtSlot) (s : ProtSlot) :
    (clearSlots t l).getSlot s = if s ∈ l then none else t.getSlot s := by
  induction l generalizing t with
  | nil => simp [clearSlots]
  | cons a rest ih =>
    simp only [clearSlots, ih]
    by_cases h : s ∈ rest
    · simp [h]
    · by_cases h2 : s = a
      · simp [h, h2, getSlot_setSlot]
      · simp [h, h2, getSlot_setSlot]

theorem clearSlots_state (t : Target ρ ε) (l : List ProtSlot) :
    (clearSlots t l).state = t.state := by
  induction l generalizing t with
  | nil => rfl
  | cons a rest ih => simp [clearSlots, ih, setSlot_state]

theorem clearSlots_status (t : Target ρ ε) (l : List ProtSlot) :
    (clearSlots t l).status = t.status := by
  induction l generalizing t with
  | nil => rfl
  | cons a rest ih => simp [clearSlots, ih, setSlot_status]

theorem clearSlots_pending (t : Target ρ ε) (l : List ProtSlot) :
    (clearSlots t l).no_state_update_pending = t.no_state_update_pending := by
  induction l generalizing t with
  | nil => rfl
  | cons a rest ih => simp [clearSlots, ih, setSlot_pending]

theorem shutdownFrom_ok (t : Target ρ ε) (l : List ProtSlot) (hnd : l.Nodup)
    (h : ∀ s ∈ l, ∀ p, t.getSlot s = some p → p.shutdown = Except.ok ()) :
    shutdownFrom t l =
      (none, clearSlots t l, l.filter (fun s => (t.getSlot s).isSome)) := by
  induction l generalizing t with
  | nil => rfl
  | cons s rest ih =>
    obtain ⟨hs_not, hnd'⟩ := List.nodup_cons.mp hnd
    cases hsl : t.getSlot s with
    | none =>
      have heq : t.setSlot s none = t := setSlot_none_of_none t s hsl
      simp [shutdownFrom, hsl, clearSlots, heq,
        ih t hnd' (fun s' hs' p hp => h s' (by simp [hs']) p hp)]
    | some p =>
      have hok : p.shutdown = Except.ok () := h s (by simp) p hsl
      have hrest : ∀ s' ∈ rest, ∀ p',
          (t.setSlot s none).getSlot s' = some p' → p'.shutdown = Except.ok () := by
        intro s' hs' p' hp'
        rw [getSlot_setSlot] at hp'
        by_cases he : s' = s
        · simp [he] at hp'
        · rw [if_neg he] at hp'
          exact h s' (by simp [hs']) p' hp'
      have hfil : rest.filter (fun s' => ((t.setSlot s none).getSlot s').isSome) =
          rest.filter (fun s' => (t.getSlot s').isSome) := by
        apply List.filter_congr
        intro s' hs'
        have hne : s' ≠ s := fun he => hs_not (he ▸ hs')
        rw [getSlot_setSlot, if_neg hne]
      simp [shutdownFrom, hsl, hok, clearSlots, ih _ hnd' hrest, hfil]

theorem shutdownFrom_all_none (t : Target ρ ε) (l : List ProtSlot)
    (h : ∀ s ∈ l, t.getSlot s = none) :
    shutdownFrom t l = (none, t, []) := by
  induction l with
  | nil => rfl
  | cons s rest ih =>
    simp [shutdownFrom, h s (by simp), ih fun s' hs' => h s' (by simp [hs'])]

/-- The slots preceding `s` in the source's teardown order. -/
def beforeSlots : ProtSlot → List ProtSlot
  | .exec => []
  | .memory => [.exec]
  | .register => [.exec, .memory]
  | .signal => [.exec, .memory, .register]
  | .monitor => [.exec, .memory, .register, .signal]
  | .remote_memory => [.exec, .memory, .register, .signal, .monitor]

/-- The slots following `s` in the source's teardown order. -/
def afterSlots : ProtSlot → List ProtSlot
  | .exec => [.memory, .register, .signal, .monitor, .remote_memory]
  | .memory => [.register, .signal, .monitor, .remote_memory]
  | .register => [.signal, .monitor, .remote_memory]
  | .signal => [.monitor, .remote_memory]
  | .monitor => [.remote_memory]
  | .remote_memory => []

theorem shutdownOrder_split (s : ProtSlot) :
    shutdownOrder = beforeSlots s ++ s :: afterSlots s := by
  cases s <;> rfl

theorem nodup_beforeSlots (s : ProtSlot) : (beforeSlots s).Nodup := by
  cases s <;> simp [beforeSlots]

theorem not_mem_beforeSlots (s : ProtSlot) : s ∉ beforeSlots s := by
  cases s <;> simp [beforeSlots]

theorem afterSlots_not_before (s s' : ProtSlot) (h : s' ∈ afterSlots s) :
    s' ∉ beforeSlots s ∧ s' ≠ s := by
  cases s <;> cases s' <;> revert h <;> decide

theorem shutdownFrom_first_fail (t : Target ρ ε) (l1 : List ProtSlot) (s : ProtSlot)
    (l2 : List ProtSlot) (p : Protocol ρ ε) (e : ε)
    (hnd : l1.Nodup) (hs1 : s ∉ l1)
    (h1 : ∀ s' ∈ l1, ∀ p', t.getSlot s' = some p' → p'.shutdown = Except.ok ())
    (hp : t.getSlot s = some p) (he : p.shutdown = Except.error e) :
    shutdownFrom t (l1 ++ s :: l2) =
      (some e, clearSlots t l1,
       l1.filter (fun x => (t.getSlot x).isSome) ++ [s]) := by
  induction l1 generalizing t with
  | nil => simp [shutdownFrom, hp, he, clearSlots]
  | cons a rest ih =>
    obtain ⟨ha_not, hnd'⟩ := List.nodup_cons.mp hnd
    have hsa : s ≠ a := fun hh => hs1 (by simp [hh])
    have hs1' : s ∉ rest := fun hh => hs1 (by simp [hh])
    cases hsl : t.getSlot a with
    | none =>
      have heq : t.setSlot a none = t := setSlot_none_of_none t a hsl
      simp [shutdownFrom, hsl, clearSlots, heq,
        ih t hnd' hs1' (fun s' h' p' hp' => h1 s' (by simp [h']) p' hp') hp]
    | some q =>
      have hok : q.shutdown = Except.ok () := h1 a (by simp) q hsl
      have h1' : ∀ s' ∈ rest, ∀ p',
          (t.setSlot a none).getSlot s' = some p' → p'.shutdown = Except.ok () := by
        intro s' h' p' hp'
        rw [getSlot_setSlot] at hp'
        by_cases hea : s' = a
        · simp [hea] at hp'
        · rw [if_neg hea] at hp'
          exact h1 s' (by simp [h']) p' hp'
      have hp2 : (t.setSlot a none).getSlot s = some p := by
        rw [getSlot_setSlot, if_neg hsa]
        exact hp
      have hfil : rest.filter (fun x => ((t.setSlot a none).getSlot x).isSome) =
          rest.filter (fun x => (t.getSlot x).isSome) := by
        apply List.filter_congr
        intro s' h'
        have hne : s' ≠ a := fun hh => ha_not (hh ▸ h')
        rw [getSlot_setSlot, if_neg hne]
      simp [shutdownFrom, hsl, hok, clearSlots,
        ih (t.setSlot a none) hnd' hs1' h1' hp2, hfil]

/-! ### Sample backends and targets used by witnesses and counterexamples -/

/-- A sample backend protocol with distinct numeric results and a
succeeding teardown. -/
def okProt (k : Nat) : Protocol Nat Nat where
  cont := k + 1
  stop := k + 2
  step := k + 3
  read_memory := fun a s w _ => a + s + w + k
  write_memory := fun _ _ _ _ _ => k + 4
  read_register := fun _ => k + 5
  write_register := fun _ v => v + k
  set_breakpoint := fun l _ _ _ _ _ _ => l + k
  set_watchpoint := fun _ _ _ => k + 6
  remove_breakpoint := fun n => n + k
  shutdown := Except.ok ()

/-- A sample protocol whose teardown raises the error `e`. -/
def badProt (k e : Nat) : Protocol Nat Nat :=
  { okProt k with shutdown := Except.error e }

/-- A concrete argument record for the guarded actions. -/
def gSample : ActionArgs where
  address := 0x1000
  size := 4
  value := 99
  num_words := 1
  words := 1
  raw := false
  register := "r0"
  line := 12
  hardware := false
  temporary := false
  regex := false
  condition := none
  ignore_count := 0
  thread := 0
  var := "x"
  write := true
  read := false
  bkptno := 2

/-- A stopped target with exec, memory and register capabilities attached,
the Event set, and one auxiliary status key. -/
def tStopped : Target Nat Nat :=
  { Target.create "t0" with
    state := TargetStates.STOPPED
    exec_protocol := some (okProt 0)
    memory_protocol := some (okProt 10)
    register_protocol := some (okProt 20)
    no_state_update_pending := true
    status := [("pc", StatusVal.aux "0x100")] }

/-- The same target while running. -/
def tRunning : Target Nat Nat :=
  { tStopped with state := TargetStates.RUNNING }

/-- A target with all six capabilities attached. -/
def tAll : Target Nat Nat :=
  { tStopped with
    signal_protocol := some (okProt 30)
    monitor_protocol := some (okProt 40)
    remote_memory_protocol := some (okProt 50) }

/-- A target whose execution capability's teardown raises 7. -/
def tBad : Target Nat Nat :=
  { tStopped with exec_protocol := some (badProt 0 7) }

/-! ### Claim theorems -/

/-- C1: for every guarded action the guard checks preconditions in a fixed
order: an empty required-capability slot fails with the
capability-unavailable error regardless of the state; otherwise a state
different from the required one fails with the wrong-state error; otherwise
the wrapped body runs with the attached capability instance and returns its
result. -/
theorem C1_guard_order (t : Target ρ ε) (a : ActionName) (g : ActionArgs) :
    (t.getSlot a.requiredSlot = none →
      t.runAction a g =
        ⟨Except.error (TargetError.capUnavailable a.funcName a.requiredSlot.fieldName),
         t, []⟩) ∧
    (∀ p, t.getSlot a.requiredSlot = some p → t.state ≠ a.requiredState →
      t.runAction a g =
        ⟨Except.error (TargetError.wrongState a.funcName t.state), t, []⟩) ∧
    (∀ p, t.getSlot a.requiredSlot = some p → t.state = a.requiredState →
      t.runAction a g = ⟨Except.ok (actionBody p a g), t.afterBody a, [a.funcName]⟩) :=
  ⟨fun h => runAction_slot_none t a g h,
   fun p hp hs => runAction_wrong_state t a g p hp hs,
   fun p hp hs => runAction_guard_ok t a g p hp hs⟩

/-- Witness for C1 at concrete inputs: a fresh target has no execution
capability, so `cont()` fails with the capability-unavailable error. -/
theorem C1_guard_order_witness :
    (Target.create "w" : Target Nat Nat).getSlot ActionName.cont.requiredSlot = none ∧
    (Target.create "w" : Target Nat Nat).runAction ActionName.cont gSample =
      ⟨Except.error (TargetError.capUnavailable "cont" "_exec_protocol"),
       Target.create "w", []⟩ :=
  ⟨rfl,
   (C1_guard_order (Target.create "w" : Target Nat Nat) ActionName.cont gSample).1 rfl⟩

/-- C2: `wait()` returns only at an observation where the state is STOPPED
and the Event is set; it never returns while every observation is
non-STOPPED (in particular RUNNING); and once the snapshot produced by
`update_state(STOPPED)` is observed it does return, at or before that
observation. -/
theorem C2_wait_returns_on_stopped (tr : List Snapshot) :
    (∀ i, waitScan tr = some i →
      ∃ sn, tr[i]? = some sn ∧ sn.state = TargetStates.STOPPED ∧ sn.pending = true) ∧
    ((∀ sn ∈ tr, sn.state ≠ TargetStates.STOPPED) → waitScan tr = none) ∧
    (∀ (t : Target ρ ε) (k : Nat),
      tr[k]? = some ((t.update_state TargetStates.STOPPED).snapshot) →
      ∃ i, i ≤ k ∧ waitScan tr = some i) := by
  refine ⟨?_, ?_, ?_⟩
  · intro i h
    obtain ⟨sn, h1, h2⟩ := waitScan_eq_some h
    simp only [waitCond, Bool.and_eq_true, decide_eq_true_eq] at h2
    exact ⟨sn, h1, h2.1, h2.2⟩
  · intro h
    apply waitScan_eq_none
    intro sn hsn
    simp [waitCond, h sn hsn]
  · intro t k hk
    exact waitScan_le hk rfl

/-- Witness for C2: the loop is still blocked at a RUNNING observation and
returns at the snapshot following `update_state(STOPPED)`. -/
theorem C2_wait_returns_on_stopped_witness :
    ([⟨TargetStates.RUNNING, false⟩, ⟨TargetStates.STOPPED, true⟩] : List Snapshot)[1]? =
      some (((Target.create "w2" : Target Nat Nat).update_state
        TargetStates.STOPPED).snapshot) ∧
    (∃ i, i ≤ 1 ∧
      waitScan [⟨TargetStates.RUNNING, false⟩, ⟨TargetStates.STOPPED, true⟩] = some i) :=
  ⟨rfl,
   (C2_wait_returns_on_stopped
     [⟨TargetStates.RUNNING, false⟩, ⟨TargetStates.STOPPED, true⟩]).2.2
     (Target.create "w2" : Target Nat Nat) 1 rfl⟩

/-- C3: `update_state(S)` records `S` and sets the Event, for every `S`;
a following `get_status()` returns a dict whose `state` key is `S` while
every other (caller-populated) key keeps its value. -/
theorem C3_update_then_status (t : Target ρ ε) (S : TargetStates) :
    (t.update_state S).state = S ∧
    (t.update_state S).no_state_update_pending = true ∧
    dictGet ((t.update_state S).get_status).2 "state" = some (StatusVal.st S) ∧
    (∀ k, k ≠ "state" →
      dictGet ((t.update_state S).get_status).2 k = dictGet t.status k) := by
  refine ⟨rfl, rfl, ?_, ?_⟩
  · exact dictGet_dictSet_self t.status "state" (StatusVal.st S)
  · intro k hk
    exact dictGet_dictSet_other t.status "state" k (StatusVal.st S) hk

/-- Witness for C3 at a concrete target: the auxiliary `pc` key survives. -/
theorem C3_update_then_status_witness :
    ("pc" : String) ≠ "state" ∧
    dictGet ((tStopped.update_state TargetStates.RUNNING).get_status).2 "pc" =
      dictGet tStopped.status "pc" :=
  ⟨by decide,
   (C3_update_then_status tStopped TargetStates.RUNNING).2.2.2 "pc" (by decide)⟩

/-- C4: with the execution capability attached and the guard passing,
`cont()`, `stop()` and `step()` clear the Event and forward to the
execution capability, returning its result unchanged; the target changes in
no other way. -/
theorem C4_exec_delegation (t : Target ρ ε) (p : Protocol ρ ε)
    (hp : t.exec_protocol = some p) :
    (t.state = TargetStates.STOPPED →
      t.cont = ⟨Except.ok p.cont,
        { t with no_state_update_pending := false }, ["cont"]⟩) ∧
    (t.state = TargetStates.RUNNING →
      t.stop = ⟨Except.ok p.stop,
        { t with no_state_update_pending := false }, ["stop"]⟩) ∧
    (t.state = TargetStates.STOPPED →
      t.step = ⟨Except.ok p.step,
        { t with no_state_update_pending := false }, ["step"]⟩) := by
  refine ⟨fun hs => ?_, fun hs => ?_, fun hs => ?_⟩ <;>
    simp [Target.cont, Target.stop, Target.step, action_valid_decorator_factory,
      Target.getSlot, hp, hs]

/-- Witness for C4: `cont()` on the concrete stopped target. -/
theorem C4_exec_delegation_witness :
    tStopped.exec_protocol = some (okProt 0) ∧
    tStopped.state = TargetStates.STOPPED ∧
    tStopped.cont = ⟨Except.ok (okProt 0).cont,
      { tStopped with no_state_update_pending := false }, ["cont"]⟩ :=
  ⟨rfl, rfl, (C4_exec_delegation tStopped (okProt 0) rfl).1 rfl⟩

/-- C5: when a guarded action's precondition fails (capability unattached,
or state not the required one) it raises before doing anything: no backend
method is invoked and the target — state, status, slots and Event — is
returned unchanged. -/
theorem C5_precondition_failure_no_effect (t : Target ρ ε) (a : ActionName)
    (g : ActionArgs)
    (h : t.getSlot a.requiredSlot = none ∨ t.state ≠ a.requiredState) :
    (∃ e, (t.runAction a g).result = Except.error e) ∧
    (t.runAction a g).target = t ∧
    (t.runAction a g).calls = [] := by
  rcases h with h | h
  · rw [runAction_slot_none t a g h]
    exact ⟨⟨_, rfl⟩, rfl, rfl⟩
  · cases hp : t.getSlot a.requiredSlot with
    | none =>
      rw [runAction_slot_none t a g hp]
      exact ⟨⟨_, rfl⟩, rfl, rfl⟩
    | some p =>
      rw [runAction_wrong_state t a g p hp h]
      exact ⟨⟨_, rfl⟩, rfl, rfl⟩

/-- Witness for C5: `cont()` on the running target changes nothing. -/
theorem C5_precondition_failure_no_effect_witness :
    tRunning.state ≠ ActionName.cont.requiredState ∧
    (tRunning.runAction ActionName.cont gSample).target = tRunning ∧
    (tRunning.runAction ActionName.cont gSample).calls = [] :=
  ⟨by decide,
   (C5_precondition_failure_no_effect tRunning ActionName.cont gSample
     (Or.inr (by decide))).2.1,
   (C5_precondition_failure_no_effect tRunning ActionName.cont gSample
     (Or.inr (by decide))).2.2⟩

/-- C6 counterexample: with the execution capability attached and the
target RUNNING, `cont()` raises the wrong-state error "cont() requested but
Target is RUNNING": the required state's name (STOPPED) appears nowhere in
it, refuting the claim that the error names both expected and actual
state. -/
theorem C6_counterexample :
    (tRunning.runAction ActionName.cont gSample).result =
      Except.error (TargetError.wrongState "cont" TargetStates.RUNNING) ∧
    ActionName.cont.requiredState = TargetStates.STOPPED ∧
    (TargetError.wrongState "cont" TargetStates.RUNNING).message =
      "cont() requested but Target is RUNNING" ∧
    strHasSub (TargetError.wrongState "cont" TargetStates.RUNNING).message
      (TargetStates.STOPPED).pyName = false :=
  ⟨rfl, rfl, by decide, by decide⟩

/-- C6 amended: on a state mismatch with the capability attached, the
raised error carries the action name and the actual current state, and its
message names both of them; the expected (required) state is not part of
the message. -/
theorem C6_amended_wrong_state_error (t : Target ρ ε) (a : ActionName)
    (g : ActionArgs) (p : Protocol ρ ε) (hp : t.getSlot a.requiredSlot = some p)
    (hs : t.state ≠ a.requiredState) :
    (t.runAction a g).result =
      Except.error (TargetError.wrongState a.funcName t.state) ∧
    strHasSub (TargetError.wrongState a.funcName t.state).message a.funcName = true ∧
    strHasSub (TargetError.wrongState a.funcName t.state).message
      t.state.pyName = true := by
  refine ⟨?_, ?_, ?_⟩
  · rw [runAction_wrong_state t a g p hp hs]
  · exact strHasSub_triple_left a.funcName "() requested but Target is " t.state.pyName
  · exact strHasSub_triple_right a.funcName "() requested but Target is " t.state.pyName

/-- Witness for the amended C6 at the concrete running target. -/
theorem C6_amended_wrong_state_error_witness :
    tRunning.getSlot ActionName.cont.requiredSlot = some (okProt 0) ∧
    tRunning.state ≠ ActionName.cont.requiredState ∧
    (tRunning.runAction ActionName.cont gSample).result =
      Except.error (TargetError.wrongState ActionName.cont.funcName tRunning.state) ∧
    strHasSub (TargetError.wrongState ActionName.cont.funcName tRunning.state).message
      tRunning.state.pyName = true :=
  ⟨rfl, by decide,
   (C6_amended_wrong_state_error tRunning ActionName.cont gSample (okProt 0)
     rfl (by decide)).1,
   (C6_amended_wrong_state_error tRunning ActionName.cont gSample (okProt 0)
     rfl (by decide)).2.2⟩

/-- C7: when every attached capability's teardown succeeds, `shutdown()`
tears down each attached capability exactly once and empties every slot;
afterwards every guarded action fails with the capability-unavailable
error regardless of state, the rest of the target is untouched, and a
second `shutdown()` is a no-op raising no error. -/
theorem C7_shutdown_releases_all_idempotent (t : Target ρ ε)
    (h : ∀ s p, t.getSlot s = some p → p.shutdown = Except.ok ()) :
    (t.shutdown).1 = none ∧
    (∀ s, (t.shutdown).2.1.getSlot s = none) ∧
    (t.shutdown).2.2.Nodup ∧
    (∀ s, s ∈ (t.shutdown).2.2 ↔ t.getSlot s ≠ none) ∧
    (t.shutdown).2.1.state = t.state ∧
    (t.shutdown).2.1.status = t.status ∧
    (t.shutdown).2.1.no_state_update_pending = t.no_state_update_pending ∧
    (∀ a g, ((t.shutdown).2.1.runAction a g).result =
      Except.error (TargetError.capUnavailable a.funcName a.requiredSlot.fieldName)) ∧
    (t.shutdown).2.1.shutdown = (none, (t.shutdown).2.1, []) := by
  have key : t.shutdown = (none, clearSlots t shutdownOrder,
      shutdownOrder.filter (fun s => (t.getSlot s).isSome)) :=
    shutdownFrom_ok t shutdownOrder nodup_shutdownOrder (fun s _ p hp => h s p hp)
  rw [key]
  have hall : ∀ s, (clearSlots t shutdownOrder).getSlot s = none := by
    intro s
    rw [getSlot_clearSlots]
    simp [mem_shutdownOrder s]
  refine ⟨rfl, hall, nodup_shutdownOrder.filter (fun s => (t.getSlot s).isSome), ?_,
    clearSlots_state t _,
    clearSlots_status t _, clearSlots_pending t _, ?_, ?_⟩
  · intro s
    simp [List.mem_filter, mem_shutdownOrder s, Option.isSome_iff_ne_none]
  · intro a g
    rw [runAction_slot_none _ a g (hall a.requiredSlot)]
  · exact shutdownFrom_all_none _ shutdownOrder fun s _ => hall s

/-- Witness for C7 at the fully attached target. -/
theorem C7_shutdown_releases_all_idempotent_witness :
    (∀ s p, tAll.getSlot s = some p → p.shutdown = Except.ok ()) ∧
    (tAll.shutdown).1 = none ∧
    (∀ s, (tAll.shutdown).2.1.getSlot s = none) ∧
    (tAll.shutdown).2.1.shutdown = (none, (tAll.shutdown).2.1, []) := by
  have hyp : ∀ s p, tAll.getSlot s = some p → p.shutdown = Except.ok () := by
    intro s p hp
    cases s <;> (injection hp with h2; rw [← h2]; rfl)
  exact ⟨hyp, (C7_shutdown_releases_all_idempotent tAll hyp).1,
    (C7_shutdown_releases_all_idempotent tAll hyp).2.1,
    (C7_shutdown_releases_all_idempotent tAll hyp).2.2.2.2.2.2.2.2⟩

/-- C8 counterexample: in `tBad` the execution capability's teardown raises
7; `shutdown()` propagates it at once: only the exec teardown was
attempted, the target is returned unchanged, and the memory capability is
still attached — the error did prevent the remaining teardowns. -/
theorem C8_counterexample :
    (tBad.shutdown).1 = some 7 ∧
    (tBad.shutdown).2.2 = [ProtSlot.exec] ∧
    (tBad.shutdown).2.1 = tBad ∧
    (tBad.shutdown).2.1.memory_protocol = some (okProt 10) :=
  ⟨rfl, rfl, rfl, rfl⟩

/-- C8 amended: when the teardown of any attached capability raises (the
capabilities before it in the teardown order having torn down cleanly,
which is the only way `shutdown()` reaches it), the error propagates out of
`shutdown()` immediately: the failing slot is not cleared, and every
remaining capability is not torn down — its teardown is never invoked and
its slot keeps its instance. Exactly the attached slots before the failing
one, plus the failing one, had their teardown called. -/
theorem C8_amended_teardown_error_aborts (t : Target ρ ε) (s : ProtSlot)
    (p : Protocol ρ ε) (e : ε)
    (hp : t.getSlot s = some p) (he : p.shutdown = Except.error e)
    (hbefore : ∀ s' ∈ beforeSlots s, ∀ p', t.getSlot s' = some p' →
      p'.shutdown = Except.ok ()) :
    (t.shutdown).1 = some e ∧
    (t.shutdown).2.1.getSlot s = some p ∧
    (t.shutdown).2.2 =
      (beforeSlots s).filter (fun x => (t.getSlot x).isSome) ++ [s] ∧
    (∀ s', s' ∈ afterSlots s →
      (t.shutdown).2.1.getSlot s' = t.getSlot s' ∧ s' ∉ (t.shutdown).2.2) := by
  have key : t.shutdown =
      (some e, clearSlots t (beforeSlots s),
       (beforeSlots s).filter (fun x => (t.getSlot x).isSome) ++ [s]) := by
    rw [Target.shutdown, shutdownOrder_split s]
    exact shutdownFrom_first_fail t (beforeSlots s) s (afterSlots s) p e
      (nodup_beforeSlots s) (not_mem_beforeSlots s) hbefore hp he
  rw [key]
  refine ⟨rfl, ?_, rfl, ?_⟩
  · rw [getSlot_clearSlots]
    simp [not_mem_beforeSlots s, hp]
  · intro s' h'
    obtain ⟨hnb, hns⟩ := afterSlots_not_before s s' h'
    constructor
    · rw [getSlot_clearSlots]
      simp [hnb]
    · simp [List.mem_filter, hns, hnb]

/-- A target whose memory capability's teardown raises 9 (exec and register
attached around it). -/
def tBadMem : Target Nat Nat :=
  { tStopped with memory_protocol := some (badProt 10 9) }

/-- Witness for the amended C8 at a failing memory teardown: exec (before
it in the order) was torn down, the memory slot stays attached, and the
register capability (after it) keeps its instance and is never torn
down. -/
theorem C8_amended_teardown_error_aborts_witness :
    tBadMem.getSlot ProtSlot.memory = some (badProt 10 9) ∧
    (badProt 10 9).shutdown = Except.error 9 ∧
    (∀ s' ∈ beforeSlots ProtSlot.memory, ∀ p', tBadMem.getSlot s' = some p' →
      p'.shutdown = Except.ok ()) ∧
    (tBadMem.shutdown).1 = some 9 ∧
    (tBadMem.shutdown).2.1.getSlot ProtSlot.memory = some (badProt 10 9) ∧
    (tBadMem.shutdown).2.2 =
      (beforeSlots ProtSlot.memory).filter
        (fun x => (tBadMem.getSlot x).isSome) ++ [ProtSlot.memory] ∧
    ((tBadMem.shutdown).2.1.getSlot ProtSlot.register =
        tBadMem.getSlot ProtSlot.register ∧
      ProtSlot.register ∉ (tBadMem.shutdown).2.2) := by
  have hbefore : ∀ s' ∈ beforeSlots ProtSlot.memory, ∀ p',
      tBadMem.getSlot s' = some p' → p'.shutdown = Except.ok () := by
    intro s' h' p' hp'
    have hx : s' = ProtSlot.exec := by simpa [beforeSlots] using h'
    subst hx
    injection hp' with h2
    rw [← h2]
    rfl
  have h := C8_amended_teardown_error_aborts tBadMem ProtSlot.memory
    (badProt 10 9) 9 rfl rfl hbefore
  exact ⟨rfl, rfl, hbefore, h.1, h.2.1, h.2.2.1,
    h.2.2.2 ProtSlot.register (by simp [afterSlots])⟩

/-- C9 counterexample: on a fresh target whose status dict is empty,
`get_status()` writes the `state` key into the stored dict before returning
it, so the stored status mapping does change: `get_status` is not
side-effect free. -/
theorem C9_counterexample :
    ((Target.create "t9" : Target Nat Nat).get_status).1.status ≠
      (Target.create "t9" : Target Nat Nat).status := by
  decide

/-- C9 amended: `get_status()` returns the status dict with the `state` key
set to the current state; its only side effect is storing that merged dict
back into the target's `status` attribute — state, Event and capability
slots are unchanged, and every other status key keeps its value. -/
theorem C9_amended_get_status (t : Target ρ ε) :
    (t.get_status).2 = dictSet t.status "state" (StatusVal.st t.state) ∧
    (t.get_status).1 =
      { t with status := dictSet t.status "state" (StatusVal.st t.state) } ∧
    (t.get_status).1.state = t.state ∧
    (t.get_status).1.no_state_update_pending = t.no_state_update_pending ∧
    (∀ s, (t.get_status).1.getSlot s = t.getSlot s) ∧
    dictGet (t.get_status).2 "state" = some (StatusVal.st t.state) ∧
    (∀ k, k ≠ "state" → dictGet (t.get_status).2 k = dictGet t.status k) := by
  refine ⟨rfl, rfl, rfl, rfl, fun s => by cases s <;> rfl,
    dictGet_dictSet_self t.status "state" (StatusVal.st t.state),
    fun k hk => dictGet_dictSet_other t.status "state" k (StatusVal.st t.state) hk⟩

/-- Witness for the amended C9 at the concrete stopped target. -/
theorem C9_amended_get_status_witness :
    ("pc" : String) ≠ "state" ∧
    dictGet (tStopped.get_status).2 "pc" = dictGet tStopped.status "pc" ∧
    dictGet (tStopped.get_status).2 "state" =
      some (StatusVal.st tStopped.state) :=
  ⟨by decide,
   (C9_amended_get_status tStopped).2.2.2.2.2.2 "pc" (by decide),
   (C9_amended_get_status tStopped).2.2.2.2.2.1⟩

/-- C10: `update_state(S)` succeeds and sets the Event for every `S` —
including `S` equal to the current state, with no transition validated or
rejected and nothing else changed — and a `wait()` whose first observation
follows `update_state(STOPPED)` returns immediately, whatever the Event's
previous value was. -/
theorem C10_update_state_unconditional (t : Target ρ ε) (S : TargetStates)
    (tr : List Snapshot) :
    (t.update_state S).state = S ∧
    (t.update_state S).no_state_update_pending = true ∧
    (t.update_state S).status = t.status ∧
    (∀ s, (t.update_state S).getSlot s = t.getSlot s) ∧
    (t.update_state t.state).state = t.state ∧
    (t.update_state t.state).no_state_update_pending = true ∧
    waitScan ((t.update_state TargetStates.STOPPED).snapshot :: tr) = some 0 :=
  ⟨rfl, rfl, rfl, fun s => by cases s <;> rfl, rfl, rfl, rfl⟩

end Avatar2
